import Mathlib

/-!
Shallow embedding of `Reuters_multiclass_classification/model.py`.

The script wraps a deep-learning framework (Keras): it builds a fixed
three-dense-layer network (input width 10000, two hidden layers of width 64
with relu, output width 46 with softmax), trains it with the framework's
`fit`, evaluates with `evaluate`, persists with `save`/`load_model`, and
predicts with `predict`.  Floating-point numbers are idealised as real
numbers; the file system is a map from path strings to stored artifacts; the
framework's minibatch gradient step (the body of one training epoch inside
`fit`) is an abstract parameter `step`, since it lives entirely inside the
wrapped library.
-/

/-- Tests whether a path is absolute (starts with the posix separator). -/
def strIsAbs (s : String) : Bool :=
  match s.data with
  | [] => false
  | c :: _ => c == '/'

/-- Tests whether a path already ends with the posix separator. -/
def strEndsWithSep (s : String) : Bool :=
  match s.data.getLast? with
  | some c => c == '/'
  | none => false

/-- Posix `os.path.join` for the two-argument uses in the script: an absolute
second component replaces the first, otherwise the parts are glued with a
single separator (no doubling when `dir` already ends in `/`). -/
def pathJoin (dir f : String) : String :=
  if strIsAbs f then f
  else if dir = "" then f
  else if strEndsWithSep dir then dir ++ f
  else dir ++ "/" ++ f

/-- A bag-of-words input row: a 10000-dimensional real vector. -/
abbrev InputVec := Fin 10000 → ℝ

/-- The in-memory Keras model object: the (fixed-topology) network's
parameters for `Dense(64) → Dense(64) → Dense(46)`, its internal model name,
and the compile-time configuration (`optimizer`, `loss`, `metrics`).  A saved
`.h5` artifact stores this full state. -/
structure KerasNetwork where
  name : String
  w1 : Fin 64 → Fin 10000 → ℝ
  b1 : Fin 64 → ℝ
  w2 : Fin 64 → Fin 64 → ℝ
  b2 : Fin 64 → ℝ
  w3 : Fin 46 → Fin 64 → ℝ
  b3 : Fin 46 → ℝ
  optimizer : String
  loss : String
  metrics : List String

/-- A dense (fully connected) layer: affine map `W x + b`. -/
noncomputable def dense {m n : ℕ} (w : Fin m → Fin n → ℝ) (b : Fin m → ℝ)
    (x : Fin n → ℝ) : Fin m → ℝ :=
  fun i => (∑ j, w i j * x j) + b i

/-- Rectified linear activation. -/
noncomputable def relu (x : ℝ) : ℝ := max x 0

/-- Softmax over the 46 output units: `exp (z i) / ∑ j, exp (z j)`. -/
noncomputable def softmax46 (z : Fin 46 → ℝ) : Fin 46 → ℝ :=
  fun i => Real.exp (z i) / ∑ j, Real.exp (z j)

/-- Forward pass of the network built by `Model.build`: two hidden dense
layers of width 64 with relu, then a dense layer of width 46 with softmax. -/
noncomputable def KerasNetwork.predictVec (net : KerasNetwork) (x : InputVec) :
    Fin 46 → ℝ :=
  softmax46 (dense net.w3 net.b3
    (fun i => relu (dense net.w2 net.b2
      (fun j => relu (dense net.w1 net.b1 x j)) i)))

/-- The framework-chosen initial parameter values for the three dense layers
(random initialisation happens inside Keras). -/
structure InitWeights where
  w1 : Fin 64 → Fin 10000 → ℝ
  b1 : Fin 64 → ℝ
  w2 : Fin 64 → Fin 64 → ℝ
  b2 : Fin 64 → ℝ
  w3 : Fin 46 → Fin 64 → ℝ
  b3 : Fin 46 → ℝ

namespace Model

/-- `Model.build`: constructs the fixed-topology functional model
(`Input(10000) → Dense(64, relu) → Dense(64, relu) → Dense(46, softmax)`)
and compiles it with the `rmsprop` optimizer, categorical cross-entropy loss
and the accuracy metric.  `nm` is the framework-generated internal model
name; `iw` the framework-generated initial weights. -/
def build (nm : String) (iw : InitWeights) : KerasNetwork :=
  { name := nm
    w1 := iw.w1, b1 := iw.b1
    w2 := iw.w2, b2 := iw.b2
    w3 := iw.w3, b3 := iw.b3
    optimizer := "rmsprop"
    loss := "categorical_crossentropy"
    metrics := ["accuracy"] }

end Model

/-- Per-epoch training history, as recorded by `fit`: one entry per completed
epoch for each of the four tracked metrics. -/
structure History where
  loss : List ℝ
  val_loss : List ℝ
  acc : List ℝ
  val_acc : List ℝ

/-- The history dictionary (`history.history` in the script): a mapping from
metric name to its per-epoch value sequence. -/
def History.toDict (h : History) : String → Option (List ℝ) := fun k =>
  if k = "loss" then some h.loss
  else if k = "val_loss" then some h.val_loss
  else if k = "acc" then some h.acc
  else if k = "val_acc" then some h.val_acc
  else none

/-- The state of the wrapping `Model` object: the single held network, the
last training history, and the fixed artifact directory. -/
structure ModelState where
  model : KerasNetwork
  train_history : Option History
  model_dir : String

namespace Model

/-- `Model.__init__`: builds the network and fixes
`model_dir = os.path.join(os.path.dirname(__file__), "model/")`, where
`scriptDir` stands for `os.path.dirname(__file__)`. -/
def init (scriptDir nm : String) (iw : InitWeights) : ModelState :=
  { model := build nm iw
    train_history := none
    model_dir := pathJoin scriptDir "model/" }

end Model

/-- The on-disk store of persisted artifacts: each path holds at most one
saved network (its full state). -/
def FileSystem := String → Option KerasNetwork

namespace Model

/-- `Model.save`: writes the model's full state to the single file
`<dir>/<model.name>.h5`. -/
def save (fs : FileSystem) (model : KerasNetwork) (dir : String) : FileSystem :=
  Function.update fs (pathJoin dir (model.name ++ ".h5")) (some model)

/-- `Model.load`: reads the artifact at `<dir>/<model_name>` into the held
network slot (`self.model = models.load_model(path)`) and returns it; a
missing file makes the framework raise, which propagates. -/
def load (st : ModelState) (fs : FileSystem) (dir model_name : String) :
    Except String (ModelState × KerasNetwork) :=
  match fs (pathJoin dir model_name) with
  | some m => Except.ok ({ st with model := m }, m)
  | none => Except.error ("OSError: unable to open file " ++ pathJoin dir model_name)

end Model

/-- Python truthiness of the `load_model_name` argument: `None` and the empty
string are falsy, every other string is truthy. -/
def pyTruthy : Option String → Bool
  | none => false
  | some s => !(s == "")

namespace Model

/-- `Model.predict`: when `load_model_name` is truthy, first loads that
artifact from `self.model_dir` (replacing the held network); then runs the
forward pass of the held network on every input row. -/
noncomputable def predict (st : ModelState) (fs : FileSystem) (input : List InputVec)
    (load_model_name : Option String) :
    Except String (ModelState × List (Fin 46 → ℝ)) :=
  if pyTruthy load_model_name then
    match load st fs st.model_dir (load_model_name.getD "") with
    | Except.ok (st', _) => Except.ok (st', input.map st'.model.predictVec)
    | Except.error e => Except.error e
  else
    Except.ok (st, input.map st.model.predictVec)

end Model

/-- A labelled dataset split: input rows paired with their class index
(labels are one-hot encoded vectors over the 46 classes; the class index is
the position of the 1). -/
abbrev Dataset := List (InputVec × Fin 46)

/-- What one epoch of the framework's minibatch training loop produces:
updated parameters and the four recorded metric values. -/
structure EpochResult where
  net : KerasNetwork
  loss : ℝ
  acc : ℝ
  val_loss : ℝ
  val_acc : ℝ

/-- The body of one training epoch inside the framework's `fit`
(minibatch stochastic gradient descent over the train split at the given
batch size, then scoring on the validation split).  It is internal to the
wrapped library, so the embedding abstracts over it. -/
abbrev FitStep := KerasNetwork → Dataset → Dataset → ℕ → EpochResult

/-- The empty history (before any epoch has completed). -/
def History.empty : History :=
  { loss := [], val_loss := [], acc := [], val_acc := [] }

/-- Prepends one epoch's metrics to a history. -/
def History.cons (r : EpochResult) (h : History) : History :=
  { loss := r.loss :: h.loss
    val_loss := r.val_loss :: h.val_loss
    acc := r.acc :: h.acc
    val_acc := r.val_acc :: h.val_acc }

/-- The framework's `fit`: runs `step` once per epoch, threading the updated
parameters through and recording one value per epoch for each metric. -/
def kerasFit (step : FitStep) (net : KerasNetwork) (train_set dev_set : Dataset)
    (epochs batch_size : ℕ) : History × KerasNetwork :=
  match epochs with
  | 0 => (History.empty, net)
  | Nat.succ n =>
    let r := step net train_set dev_set batch_size
    let rest := kerasFit step r.net train_set dev_set n batch_size
    (History.cons r rest.1, rest.2)

namespace Model

/-- `Model.train`: fits the held network on the train split, validating on
the dev split; stores the resulting history; when `save_model` is set, saves
the trained network to `self.model_dir`; returns
`(self.train_history.history, self.model)`. -/
def train (step : FitStep) (st : ModelState) (fs : FileSystem)
    (train_set dev_set : Dataset) (epochs batch_size : ℕ) (save_model : Bool) :
    (ModelState × FileSystem) × ((String → Option (List ℝ)) × KerasNetwork) :=
  let fitted := kerasFit step st.model train_set dev_set epochs batch_size
  let st' : ModelState :=
    { st with model := fitted.2, train_history := some fitted.1 }
  let fs' := if save_model then save fs fitted.2 st.model_dir else fs
  ((st', fs'), (fitted.1.toDict, fitted.2))

/-- The script's default `epochs` argument to `train`. -/
def trainDefaultEpochs : ℕ := 1

/-- The script's default `batch_size` argument to `train`. -/
def trainDefaultBatchSize : ℕ := 512

/-- The script's default `save_model` argument to `train`. -/
def trainDefaultSaveModel : Bool := true

/-- `Model.train` called with all defaulted arguments at their defaults. -/
def trainDefaults (step : FitStep) (st : ModelState) (fs : FileSystem)
    (train_set dev_set : Dataset) :
    (ModelState × FileSystem) × ((String → Option (List ℝ)) × KerasNetwork) :=
  train step st fs train_set dev_set trainDefaultEpochs trainDefaultBatchSize
    trainDefaultSaveModel

end Model

/-- One line chart as assembled by `plot_history`: the shared x axis
(`range(1, len(loss) + 1)`), the two plotted series, and the texts. -/
structure LineChart where
  xs : List ℕ
  dots : List ℝ
  line : List ℝ
  title : String
  xlabel : String
  ylabel : String

/-- The rendered figure: the loss chart on top, the accuracy chart below. -/
structure Figure where
  lossChart : LineChart
  accChart : LineChart

namespace Model

/-- `Model.plot_history`: looks up the four metric sequences in the history
dictionary (a missing key raises `KeyError`, modelled as the error case) and
renders the two stacked line charts. -/
def plot_history (history : String → Option (List ℝ)) : Except String Figure :=
  match history "loss" with
  | none => Except.error "KeyError: loss"
  | some loss =>
    match history "val_loss" with
    | none => Except.error "KeyError: val_loss"
    | some val_loss =>
      match history "acc" with
      | none => Except.error "KeyError: acc"
      | some acc =>
        match history "val_acc" with
        | none => Except.error "KeyError: val_acc"
        | some val_acc =>
          let epochs := List.range' 1 loss.length
          Except.ok
            { lossChart :=
                { xs := epochs, dots := loss, line := val_loss
                  title := "Training and validation loss"
                  xlabel := "Epochs", ylabel := "Loss" }
              accChart :=
                { xs := epochs, dots := acc, line := val_acc
                  title := "Training and validation accuracy"
                  xlabel := "Epochs", ylabel := "Acc" } }

end Model

/-- One-hot encoding of a class label over the 46 classes. -/
def oneHot (y : Fin 46) : Fin 46 → ℝ := fun i => if i = y then 1 else 0

/-- Categorical cross-entropy of a predicted distribution `p` against the
one-hot encoding of label `y`: `-∑ i, oneHot y i * log (p i) = -log (p y)`. -/
noncomputable def crossEntropy (p : Fin 46 → ℝ) (y : Fin 46) : ℝ :=
  -∑ i, oneHot y i * Real.log (p i)

/-- Whether the framework's categorical accuracy metric scores a sample as
correct: the true class attains the maximal predicted probability. -/
noncomputable def topClassHit (p : Fin 46 → ℝ) (y : Fin 46) : ℝ :=
  haveI := Classical.propDecidable (∀ j, p j ≤ p y)
  if ∀ j, p j ≤ p y then 1 else 0

namespace Model

/-- `Model.evaluate`: one forward pass over the test split with the held
network, returning the mean categorical cross-entropy loss and the mean
accuracy; the held state is not modified. -/
noncomputable def evaluate (st : ModelState) (test_set : Dataset) :
    ModelState × (ℝ × ℝ) :=
  let n : ℝ := test_set.length
  let loss :=
    (test_set.map (fun s => crossEntropy (st.model.predictVec s.1) s.2)).sum / n
  let acc :=
    (test_set.map (fun s => topClassHit (st.model.predictVec s.1) s.2)).sum / n
  (st, (loss, acc))

end Model

/-! Concrete instances used to witness the theorems below. -/

/-- A concrete (all-zero) initialisation of the network parameters. -/
noncomputable def iwC : InitWeights :=
  { w1 := fun _ _ => 0, b1 := fun _ => 0
    w2 := fun _ _ => 0, b2 := fun _ => 0
    w3 := fun _ _ => 0, b3 := fun _ => 0 }

/-- A concrete built network. -/
noncomputable def mC : KerasNetwork := Model.build "model_1" iwC

/-- A concrete wrapper state, as after `Model()` with the script at `/app`. -/
noncomputable def stC : ModelState := Model.init "/app" "model_1" iwC

/-- A concrete empty file system. -/
def fsEmpty : FileSystem := fun _ => none

/-- A concrete file system holding the network `mC` at every path. -/
noncomputable def fsAll : FileSystem := fun _ => some mC

/-- A concrete epoch step that leaves the parameters unchanged and reports
zero for every metric. -/
noncomputable def stepC : FitStep :=
  fun net _ _ _ => { net := net, loss := 0, acc := 0, val_loss := 0, val_acc := 0 }



/-! Helper lemmas about the softmax output layer. -/

lemma sum_exp_pos (z : Fin 46 → ℝ) : 0 < ∑ j, Real.exp (z j) :=
  Finset.sum_pos (fun j _ => Real.exp_pos (z j)) Finset.univ_nonempty

lemma softmax46_nonneg (z : Fin 46 → ℝ) (i : Fin 46) : 0 ≤ softmax46 z i :=
  div_nonneg (Real.exp_pos (z i)).le (sum_exp_pos z).le

lemma softmax46_sum_one (z : Fin 46 → ℝ) : ∑ i, softmax46 z i = 1 := by
  unfold softmax46
  rw [← Finset.sum_div, div_self (ne_of_gt (sum_exp_pos z))]

lemma softmax46_le_one (z : Fin 46 → ℝ) (i : Fin 46) : softmax46 z i ≤ 1 := by
  unfold softmax46
  exact div_le_one_of_le₀
    (Finset.single_le_sum (fun j _ => (Real.exp_pos (z j)).le) (Finset.mem_univ i))
    (sum_exp_pos z).le

/-- Claim C1: `build` produces the fixed network (10000-dimensional input,
two hidden dense layers of width 64 with relu, 46-wide softmax output)
compiled with categorical cross-entropy loss and the rmsprop optimizer, and
for every input its output is a 46-entry probability distribution:
non-negative values summing to 1. -/
theorem build_produces_probability_network (nm : String) (iw : InitWeights)
    (x : InputVec) :
    (Model.build nm iw).optimizer = "rmsprop" ∧
    (Model.build nm iw).loss = "categorical_crossentropy" ∧
    (Model.build nm iw).predictVec x =
      softmax46 (dense iw.w3 iw.b3
        (fun i => relu (dense iw.w2 iw.b2
          (fun j => relu (dense iw.w1 iw.b1 x j)) i))) ∧
    (∀ i, 0 ≤ (Model.build nm iw).predictVec x i) ∧
    (∑ i, (Model.build nm iw).predictVec x i) = 1 := by
  refine ⟨rfl, rfl, rfl, fun i => softmax46_nonneg _ i, softmax46_sum_one _⟩

/-- Claim C2: saving a network with `save` and loading it back with `load`
(from the same directory, under the saved file's name) succeeds and yields a
network whose `predict` outputs on any input equal the pre-save outputs
(exactly, in the real-number idealisation of floats). -/
theorem save_load_roundtrip_preserves_predictions (st : ModelState)
    (fs : FileSystem) (m : KerasNetwork) (dir : String) (x : InputVec) :
    ∃ st2, Model.load st (Model.save fs m dir) dir (m.name ++ ".h5") =
        Except.ok (st2, st2.model) ∧
      st2.model.predictVec x = m.predictVec x := by
  refine ⟨{ st with model := m }, ?_, rfl⟩
  unfold Model.load Model.save
  rw [Function.update_same]

/-- Claim C3: `plot_history` raises exactly when the history mapping lacks
one of the four required keys (`loss`, `val_loss`, `acc`, `val_acc`); with
all four present it assembles the two stacked charts and does not raise
(the rendering call itself is modelled as total, matplotlib being outside
the code under analysis). -/
theorem plot_history_fails_iff_key_missing (h : String → Option (List ℝ)) :
    (Model.plot_history h).isOk = false ↔
      (h "loss" = none ∨ h "val_loss" = none ∨ h "acc" = none ∨
        h "val_acc" = none) := by
  unfold Model.plot_history
  cases hl : h "loss" <;> cases hv : h "val_loss" <;>
    cases ha : h "acc" <;> cases hva : h "val_acc" <;>
      simp [Except.isOk, Except.toBool]

/-- Each metric sequence recorded by `fit` has one entry per epoch. -/
lemma kerasFit_lengths (step : FitStep) (tr dv : Dataset) (bs : ℕ)
    (epochs : ℕ) : ∀ net : KerasNetwork,
    ((kerasFit step net tr dv epochs bs).1.loss.length = epochs) ∧
    ((kerasFit step net tr dv epochs bs).1.val_loss.length = epochs) ∧
    ((kerasFit step net tr dv epochs bs).1.acc.length = epochs) ∧
    ((kerasFit step net tr dv epochs bs).1.val_acc.length = epochs) := by
  induction epochs with
  | zero => intro net; simp [kerasFit, History.empty]
  | succ n ih =>
    intro net
    have h := ih (step net tr dv bs).net
    simp [kerasFit, History.cons, h.1, h.2.1, h.2.2.1, h.2.2.2]

/-- Claim C4: `train` (whose defaulted arguments are `epochs = 1`,
`batch_size = 512`, `save_model = true`) returns the pair of the per-epoch
history dictionary and the trained network; it is total (no error is
raised), and for every epoch count ≥ 1 every metric sequence present in the
history has length equal to the epoch count. -/
theorem train_returns_history_of_epoch_length (step : FitStep)
    (st : ModelState) (fs : FileSystem) (tr dv : Dataset) (epochs bs : ℕ)
    (sm : Bool) (_hep : 1 ≤ epochs) :
    (Model.trainDefaults step st fs tr dv =
      Model.train step st fs tr dv 1 512 true) ∧
    ((Model.train step st fs tr dv epochs bs sm).2 =
      ((kerasFit step st.model tr dv epochs bs).1.toDict,
        (kerasFit step st.model tr dv epochs bs).2)) ∧
    (∀ k l, (Model.train step st fs tr dv epochs bs sm).2.1 k = some l →
      l.length = epochs) := by
  refine ⟨rfl, rfl, ?_⟩
  intro k l hk
  have hlen := kerasFit_lengths step tr dv bs epochs st.model
  simp only [Model.train, History.toDict] at hk
  split_ifs at hk <;> simp_all

/-- Witness for C4 at a concrete step function, state and splits. -/
theorem train_returns_history_of_epoch_length_witness :
    1 ≤ 1 ∧
    ((Model.trainDefaults stepC stC fsEmpty [] [] =
      Model.train stepC stC fsEmpty [] [] 1 512 true) ∧
    ((Model.train stepC stC fsEmpty [] [] 1 512 true).2 =
      ((kerasFit stepC stC.model [] [] 1 512).1.toDict,
        (kerasFit stepC stC.model [] [] 1 512).2)) ∧
    (∀ k l, (Model.train stepC stC fsEmpty [] [] 1 512 true).2.1 k = some l →
      l.length = 1)) :=
  ⟨Nat.le_refl 1,
    train_returns_history_of_epoch_length stepC stC fsEmpty [] [] 1 512 true
      (Nat.le_refl 1)⟩

/-- Claim C5: `train` persists the trained artifact exactly when its
`save_model` flag is set: with the flag unset the file system is unchanged;
with the flag set, the trained network is written at
`<self.model_dir>/<name>.h5` and no other path changes; and `__init__` fixes
`model_dir` as `model/` under the script's own directory. -/
theorem train_persists_iff_flag (step : FitStep) (st : ModelState)
    (fs : FileSystem) (tr dv : Dataset) (epochs bs : ℕ) :
    ((Model.train step st fs tr dv epochs bs false).1.2 = fs) ∧
    ((Model.train step st fs tr dv epochs bs true).1.2
        (pathJoin st.model_dir
          ((kerasFit step st.model tr dv epochs bs).2.name ++ ".h5")) =
      some (kerasFit step st.model tr dv epochs bs).2) ∧
    (∀ p, p ≠ pathJoin st.model_dir
        ((kerasFit step st.model tr dv epochs bs).2.name ++ ".h5") →
      (Model.train step st fs tr dv epochs bs true).1.2 p = fs p) ∧
    (∀ scriptDir nm iw,
      (Model.init scriptDir nm iw).model_dir = pathJoin scriptDir "model/") := by
  refine ⟨rfl, ?_, ?_, fun _ _ _ => rfl⟩
  · simp [Model.train, Model.save, Function.update_same]
  · intro p hp
    simp [Model.train, Model.save, Function.update_noteq hp]

/-- Witness for C5 at a concrete step function, state and splits. -/
theorem train_persists_iff_flag_witness :
    ("x" ≠ pathJoin stC.model_dir
        ((kerasFit stepC stC.model [] [] 1 512).2.name ++ ".h5")) ∧
    (Model.train stepC stC fsEmpty [] [] 1 512 true).1.2 "x" = fsEmpty "x" :=
  ⟨by decide,
    (train_persists_iff_flag stepC stC fsEmpty [] [] 1 512).2.2.1 "x"
      (by decide)⟩

/-- Claim C6: `save` writes the network's full state to the single file
`<directory>/<network-name>.h5` — the filename is derived from the model's
internal name — and leaves every other path untouched. -/
theorem save_writes_named_single_file (fs : FileSystem) (m : KerasNetwork)
    (dir : String) :
    (Model.save fs m dir (pathJoin dir (m.name ++ ".h5")) = some m) ∧
    (∀ p, p ≠ pathJoin dir (m.name ++ ".h5") → Model.save fs m dir p = fs p) := by
  refine ⟨Function.update_same _ _ _, ?_⟩
  intro p hp
  exact Function.update_noteq hp _ _

/-- Witness for C6 at a concrete file system, network and directory. -/
theorem save_writes_named_single_file_witness :
    ("x" ≠ pathJoin "d" (mC.name ++ ".h5")) ∧
    Model.save fsEmpty mC "d" "x" = fsEmpty "x" :=
  ⟨by decide, (save_writes_named_single_file fsEmpty mC "d").2 "x" (by decide)⟩

/-- Claim C7: the held network is replaced wholesale, with no other object
state touched, by (and only by) a successful `load` and a `predict` call
that names an artifact: both set `self.model` to the freshly loaded network
and change neither `train_history` nor `model_dir`; a `predict` call without
an artifact name and an `evaluate` call leave the whole object state
unchanged, and `save` never touches the object state at all (it only writes
the file system). -/
theorem held_network_replaced_only_by_load_and_named_predict
    (st : ModelState) (fs : FileSystem) (dir nm : String)
    (input : List InputVec) (s : String) (ts : Dataset) :
    (∀ m, fs (pathJoin dir nm) = some m →
      Model.load st fs dir nm = Except.ok ({ st with model := m }, m)) ∧
    (∀ m, s ≠ "" → fs (pathJoin st.model_dir s) = some m →
      Model.predict st fs input (some s) =
        Except.ok ({ st with model := m }, input.map m.predictVec)) ∧
    (Model.predict st fs input none =
      Except.ok (st, input.map st.model.predictVec)) ∧
    ((Model.evaluate st ts).1 = st) := by
  refine ⟨?_, ?_, rfl, rfl⟩
  · intro m hm
    simp [Model.load, hm]
  · intro m hs hm
    simp [Model.predict, pyTruthy, hs, Model.load, hm]

/-- Witness for C7: a named `predict` call on a concrete state and file
system replaces the held network with the loaded artifact. -/
theorem held_network_replaced_witness :
    Model.predict stC fsAll [] (some "model_1.h5") =
      Except.ok ({ stC with model := mC }, List.map (KerasNetwork.predictVec mC) []) :=
  (held_network_replaced_only_by_load_and_named_predict stC fsAll "d" "n" []
      "model_1.h5" []).2.1 mC (by decide) rfl

/-- Claim C8: `predict` without an artifact name is deterministic and
performs no parameter update: it returns the held state unchanged, and a
repeated call on the state returned by a first call yields the identical
probability outputs. -/
theorem predict_repeatable_no_update (st : ModelState) (fs : FileSystem)
    (input : List InputVec) :
    (Model.predict st fs input none =
      Except.ok (st, input.map st.model.predictVec)) ∧
    (∀ st2 out, Model.predict st fs input none = Except.ok (st2, out) →
      st2 = st ∧ Model.predict st2 fs input none = Except.ok (st2, out)) := by
  have h1 : Model.predict st fs input none =
      Except.ok (st, input.map st.model.predictVec) := rfl
  refine ⟨h1, ?_⟩
  intro st2 out h
  rw [h1] at h
  simp only [Except.ok.injEq, Prod.mk.injEq] at h
  obtain ⟨h2, h3⟩ := h
  subst h2
  subst h3
  exact ⟨rfl, h1⟩

/-- Witness for C8 at a concrete state, file system and input batch. -/
theorem predict_repeatable_no_update_witness :
    stC = stC ∧ Model.predict stC fsEmpty [] none =
      Except.ok (stC, List.map (KerasNetwork.predictVec stC.model) []) :=
  (predict_repeatable_no_update stC fsEmpty []).2 stC
    (List.map (KerasNetwork.predictVec stC.model) []) rfl

/-- Categorical cross-entropy against a one-hot label collapses to the
negative log-probability of the true class. -/
lemma crossEntropy_eq_neg_log (p : Fin 46 → ℝ) (y : Fin 46) :
    crossEntropy p y = -Real.log (p y) := by
  unfold crossEntropy oneHot
  simp [ite_mul]

/-- On softmax outputs, per-sample categorical cross-entropy is
non-negative. -/
lemma crossEntropy_predictVec_nonneg (net : KerasNetwork) (x : InputVec)
    (y : Fin 46) : 0 ≤ crossEntropy (net.predictVec x) y := by
  rw [crossEntropy_eq_neg_log]
  have h0 : 0 ≤ net.predictVec x y := softmax46_nonneg _ y
  have h1 : net.predictVec x y ≤ 1 := softmax46_le_one _ y
  have := Real.log_nonpos h0 h1
  linarith

/-- Claim C9: `evaluate` leaves the held state untouched (one forward pass,
no parameter update) and returns the pair of the mean categorical
cross-entropy loss and the mean accuracy over the test split; the loss is a
non-negative real number (in particular finite, real numbers having no
infinities). -/
theorem evaluate_returns_nonneg_loss (st : ModelState) (ts : Dataset) :
    ((Model.evaluate st ts).1 = st) ∧
    ((Model.evaluate st ts).2.1 =
      (ts.map (fun s => crossEntropy (st.model.predictVec s.1) s.2)).sum /
        (ts.length : ℝ)) ∧
    ((Model.evaluate st ts).2.2 =
      (ts.map (fun s => topClassHit (st.model.predictVec s.1) s.2)).sum /
        (ts.length : ℝ)) ∧
    (0 ≤ (Model.evaluate st ts).2.1) := by
  refine ⟨rfl, rfl, rfl, ?_⟩
  have hsum : 0 ≤
      (ts.map (fun s => crossEntropy (st.model.predictVec s.1) s.2)).sum := by
    apply List.sum_nonneg
    intro a ha
    obtain ⟨s, _, rfl⟩ := List.mem_map.mp ha
    exact crossEntropy_predictVec_nonneg st.model s.1 s.2
  exact div_nonneg hsum (Nat.cast_nonneg ts.length)

/-- Claim C10: `predict` loads a persisted artifact exactly when
`load_model_name` is truthy: with `None` or the empty string no load occurs,
the held network is used and the held state is unchanged; with a non-empty
name the call routes through `load` from `self.model_dir`. -/
theorem predict_loads_iff_truthy_name (st : ModelState) (fs : FileSystem)
    (input : List InputVec) :
    (Model.predict st fs input none =
      Except.ok (st, input.map st.model.predictVec)) ∧
    (Model.predict st fs input (some "") =
      Except.ok (st, input.map st.model.predictVec)) ∧
    (∀ s, s ≠ "" →
      Model.predict st fs input (some s) =
        (match Model.load st fs st.model_dir s with
         | Except.ok (st2, _) => Except.ok (st2, input.map st2.model.predictVec)
         | Except.error e => Except.error e)) := by
  refine ⟨rfl, rfl, ?_⟩
  intro s hs
  simp [Model.predict, pyTruthy, hs]

/-- Witness for C10: a non-empty artifact name makes `predict` load. -/
theorem predict_loads_iff_truthy_name_witness :
    Model.predict stC fsAll [] (some "m.h5") =
      (match Model.load stC fsAll stC.model_dir "m.h5" with
       | Except.ok (st2, _) =>
         Except.ok (st2, List.map (fun x => st2.model.predictVec x) [])
       | Except.error e => Except.error e) :=
  (predict_loads_iff_truthy_name stC fsAll []).2.2 "m.h5" (by decide)
